import Mathlib

/-!
Verification of uberstealth: the IDA plugin dispatcher and the remote stealth
session.

A shallow embedding of `src/uberstealth/idastealth.cpp` (the debugger state
classifier, `createSession` and the notification `callback`) and of the inline
members of `src/uberstealth/RemoteStealthSession.h`.

Conventions of the embedding

* The two file-local globals `session_` and `debuggerState_` become the record
  `Globals`, passed explicitly.
* Everything the code reads from the IDA SDK or from headers that are not part
  of the sources (`dbg`, the netnode database, the profile reader, the bodies
  of the session handlers) is a field of the record `Host`, so every theorem
  holds for every behaviour of those parts.
* The SDK constant `DEBUGGER_ID_X86_IA32_WIN32_USER` is a parameter.
* A C++ exception is a value of `Thrown`; a member call through an empty
  `boost::shared_ptr` and flowing off the end of `createSession` have no
  defined behaviour and are the outcome `Outcome.undefined`.
-/

namespace Uberstealth

/-! Data model -/

/-- The enumeration `DebuggerState` of idastealth.cpp, line 27. -/
inductive DebuggerState where
  | LocalWin32
  | RemoteWin32
  | Other
  deriving DecidableEq, Repr

/-- What a `throw` can carry past a frame: something derived from
`std::exception` (with its `what()` text) or any other value. These are the two
handlers of the `try` block in `callback`. -/
inductive Thrown where
  | stdException (what : String)
  | unknown
  deriving DecidableEq, Repr

/-- The concrete class `createSession` instantiates. -/
inductive SessionKind where
  | LocalStealthSession
  | RemoteStealthSession
  deriving DecidableEq, Repr

/-- A session object on the heap: its dynamic type and its identity (the
number of session objects constructed before it). `session_` points to one. -/
structure Session where
  kind : SessionKind
  ident : Nat
  deriving DecidableEq, Repr

/-- The five virtual members of `StealthSession` that `callback` invokes, with
their arguments. -/
inductive Call where
  | handleDebuggerAttach (processId : Nat)
  | handleDebuggerStart (processId : Nat) (baseAddress : Nat)
  | handleDebuggerExit
  | handleBreakpoint (threadID : Nat) (address : Nat)
  | handleException (exceptionCode : Nat)
  deriving DecidableEq, Repr

/-- Modelled from the spec: `HideDebugger/HideDebuggerProfile.h` is not among
the sources. The data model of the spec gives a profile a name, a set of boolean
countermeasure toggles keyed by technique name, and a set of resource
references. -/
structure HideDebuggerProfile where
  name : String
  toggles : List (String × Bool)
  resources : List String
  deriving DecidableEq, Repr

/-- The parts of the world the dispatcher reads.

* `is_remote` is `dbg->is_remote()`, `id` is `dbg->id`.
* `altval name index` is the `ulong` that `netnode(name).altval(index)` yields.
* `getCurrentProfileFile` is the result of `uberstealth::getCurrentProfileFile()`.
* `readProfileFromFile` is `HideDebuggerProfile::readProfileFromFile`.
* `constructLocal path` is what the constructor of `LocalStealthSession`
  throws, `none` when it returns.
* `handler s c` is what member `c` of session `s` throws, `none` when it
  returns. -/
structure Host where
  is_remote : Bool
  id : Int
  altval : String → Nat → Nat
  getCurrentProfileFile : Except Thrown String
  readProfileFromFile : String → Except Thrown HideDebuggerProfile
  constructLocal : String → Option Thrown
  handler : Session → Call → Option Thrown

/-- The file-local globals of idastealth.cpp (lines 25 to 28). `made` is ghost
state: the number of session objects constructed so far, which is the identity
of the next one. -/
structure Globals where
  session_ : Option Session
  debuggerState_ : DebuggerState
  made : Nat
  deriving DecidableEq, Repr

/-- The globals as initialised at load time: `session_` empty,
`debuggerState_ = Other`. -/
def Globals.initial : Globals :=
  { session_ := none, debuggerState_ := DebuggerState.Other, made := 0 }

/-! Debugger state classifier (idastealth.cpp, lines 108 to 135) -/

/-- Function `isLocalWindbg`: reads alternate value 2 of the netnode
`$ windbg_params` and returns `!value`. -/
def isLocalWindbg (dbg : Host) : Bool :=
  let value := dbg.altval "$ windbg_params" 2
  value == 0

/-- Function `isWin32RemoteDebugger`: the debugger is remote and is the native
win32 user backend. -/
def isWin32RemoteDebugger (DEBUGGER_ID_X86_IA32_WIN32_USER : Int) (dbg : Host) : Bool :=
  dbg.is_remote && dbg.id == DEBUGGER_ID_X86_IA32_WIN32_USER

/-- Function `isLocalWin32Debugger`: the native win32 user backend run locally,
or a local windbg. -/
def isLocalWin32Debugger (DEBUGGER_ID_X86_IA32_WIN32_USER : Int) (dbg : Host) : Bool :=
  (!dbg.is_remote && dbg.id == DEBUGGER_ID_X86_IA32_WIN32_USER) || isLocalWindbg dbg

/-- Function `updateDebuggerState`: overwrites `debuggerState_`. -/
def updateDebuggerState (DEBUGGER_ID_X86_IA32_WIN32_USER : Int) (dbg : Host)
    (g : Globals) : Globals :=
  if isLocalWin32Debugger DEBUGGER_ID_X86_IA32_WIN32_USER dbg then
    { g with debuggerState_ := DebuggerState.LocalWin32 }
  else if isWin32RemoteDebugger DEBUGGER_ID_X86_IA32_WIN32_USER dbg then
    { g with debuggerState_ := DebuggerState.RemoteWin32 }
  else
    { g with debuggerState_ := DebuggerState.Other }

/-- Function `getDebuggerState`: reads `debuggerState_`. -/
def getDebuggerState (g : Globals) : DebuggerState :=
  g.debuggerState_

/-- The classification of a notification: the value `updateDebuggerState`
stores when it runs against `dbg` (the stored value does not depend on the
globals it starts from, see `updateDebuggerState_eq`). -/
def classification (DEBUGGER_ID_X86_IA32_WIN32_USER : Int) (dbg : Host) : DebuggerState :=
  getDebuggerState (updateDebuggerState DEBUGGER_ID_X86_IA32_WIN32_USER dbg Globals.initial)

/-! Session factory and notification callback (idastealth.cpp, lines 137 to 204) -/

/-- The result of evaluating an expression that may throw or have no defined
behaviour. -/
inductive Exec (α : Type) where
  | ok (a : α)
  | threw (t : Thrown)
  | undefined

/-- The constructor of `RemoteStealthSession` (RemoteStealthSession.h, lines 18
to 20) as far as it can fail: its member initialiser reads the profile from
`profilePath`, and what that throws leaves the constructor. -/
def constructRemote (dbg : Host) (profilePath : String) : Option Thrown :=
  match dbg.readProfileFromFile profilePath with
  | Except.ok _ => none
  | Except.error t => some t

/-- Function `createSession`. The argument of the constructor,
`getCurrentProfileFile()`, is evaluated first; `next` is the identity the new
object gets. The `switch` has no case for `Other` and nothing follows it, so for
`Other` control flows off the end of a function that returns a value. -/
def createSession (dbg : Host) (next : Nat) (debuggerState : DebuggerState) : Exec Session :=
  match debuggerState with
  | DebuggerState.LocalWin32 =>
    match dbg.getCurrentProfileFile with
    | Except.error t => Exec.threw t
    | Except.ok path =>
      match dbg.constructLocal path with
      | some t => Exec.threw t
      | none => Exec.ok { kind := SessionKind.LocalStealthSession, ident := next }
  | DebuggerState.RemoteWin32 =>
    match dbg.getCurrentProfileFile with
    | Except.error t => Exec.threw t
    | Except.ok path =>
      match constructRemote dbg path with
      | some t => Exec.threw t
      | none => Exec.ok { kind := SessionKind.RemoteStealthSession, ident := next }
  | DebuggerState.Other => Exec.undefined

/-- The notification `callback` receives: the notification code together with
the arguments it takes from the `va_list` for that code. `other` is any code
that matches none of the five `case` labels. -/
inductive Notification where
  | dbg_process_attach (pid : Nat)
  | dbg_process_start (pid : Nat) (base : Nat)
  | dbg_process_exit
  | dbg_bpt (tid : Nat) (breakpoint_ea : Nat)
  | dbg_exception (code : Nat)
  | other (notification_code : Int)
  deriving DecidableEq, Repr

/-- What the dispatcher does that can be observed from outside it. -/
inductive Effect where
  | constructed (s : Session)
  | released (s : Session)
  | call (s : Session) (c : Call)
  | msg (line : String)
  deriving DecidableEq, Repr

/-- How a block of statements ends. -/
inductive Outcome where
  | completed
  | threw (t : Thrown)
  | undefined
  deriving DecidableEq, Repr

/-- A block of statements run to its end: how it ended, the globals it left and
what it did, in order. -/
structure Run where
  outcome : Outcome
  globals : Globals
  trace : List Effect
  deriving DecidableEq, Repr

/-- The statement `session_->c(...)`: a member call through `session_`. Through
an empty pointer it has no defined behaviour. -/
def forward (dbg : Host) (g : Globals) (c : Call) : Run :=
  match g.session_ with
  | none => { outcome := Outcome.undefined, globals := g, trace := [] }
  | some s =>
    match dbg.handler s c with
    | none => { outcome := Outcome.completed, globals := g, trace := [Effect.call s c] }
    | some t => { outcome := Outcome.threw t, globals := g, trace := [Effect.call s c] }

/-- What the assignment to `session_` lets go of. -/
def releasedBy (old : Option Session) : List Effect :=
  match old with
  | none => []
  | some s => [Effect.released s]

/-- The statement `session_ = createSession(getDebuggerState());`. The right
side is evaluated first; only when it returns is the pointer replaced. -/
def assignSession (dbg : Host) (g : Globals) : Run :=
  match createSession dbg g.made (getDebuggerState g) with
  | Exec.threw t => { outcome := Outcome.threw t, globals := g, trace := [] }
  | Exec.undefined => { outcome := Outcome.undefined, globals := g, trace := [] }
  | Exec.ok s =>
    { outcome := Outcome.completed,
      globals := { g with session_ := some s, made := g.made + 1 },
      trace := Effect.constructed s :: releasedBy g.session_ }

/-- Sequencing of two statements: the second runs only when the first one
completed. -/
def Run.andThen (r : Run) (next : Globals → Run) : Run :=
  match r.outcome with
  | Outcome.completed =>
    let r2 := next r.globals
    { outcome := r2.outcome, globals := r2.globals, trace := r.trace ++ r2.trace }
  | _ => r

/-- The body of the `try` block of `callback`: the `switch` over the
notification code. -/
def tryBlock (DEBUGGER_ID_X86_IA32_WIN32_USER : Int) (dbg : Host) (g : Globals)
    (n : Notification) : Run :=
  match n with
  | Notification.dbg_process_attach pid =>
    let g1 := updateDebuggerState DEBUGGER_ID_X86_IA32_WIN32_USER dbg g
    if getDebuggerState g1 ≠ DebuggerState.Other then
      (assignSession dbg g1).andThen fun g2 => forward dbg g2 (Call.handleDebuggerAttach pid)
    else
      { outcome := Outcome.completed, globals := g1, trace := [] }
  | Notification.dbg_process_start pid base =>
    let g1 := updateDebuggerState DEBUGGER_ID_X86_IA32_WIN32_USER dbg g
    if getDebuggerState g1 ≠ DebuggerState.Other then
      (assignSession dbg g1).andThen fun g2 => forward dbg g2 (Call.handleDebuggerStart pid base)
    else
      { outcome := Outcome.completed, globals := g1, trace := [] }
  | Notification.dbg_process_exit =>
    if getDebuggerState g ≠ DebuggerState.Other then
      forward dbg g Call.handleDebuggerExit
    else
      { outcome := Outcome.completed, globals := g, trace := [] }
  | Notification.dbg_bpt tid breakpoint_ea =>
    if getDebuggerState g ≠ DebuggerState.Other then
      forward dbg g (Call.handleBreakpoint tid breakpoint_ea)
    else
      { outcome := Outcome.completed, globals := g, trace := [] }
  | Notification.dbg_exception code =>
    if getDebuggerState g ≠ DebuggerState.Other then
      forward dbg g (Call.handleException code)
    else
      { outcome := Outcome.completed, globals := g, trace := [] }
  | Notification.other _ =>
    { outcome := Outcome.completed, globals := g, trace := [] }

/-- The line a `catch` handler of `callback` passes to `msg`. -/
def catchLine (t : Thrown) : String :=
  match t with
  | Thrown.stdException what =>
    "uberstealth: Error while processing debug event: " ++ what ++ "\n"
  | Thrown.unknown => "uberstealth: Unknown error (this should never happen!)\n"

/-- A call of `callback` that returned: the value returned, the globals it left
and what it did. -/
structure Returned where
  ret : Int
  globals : Globals
  trace : List Effect
  deriving DecidableEq, Repr

/-- Function `callback`: the `try` block, the two `catch` handlers and
`return 0`. The result is `none` when the `try` block did something without
defined behaviour. -/
def callback (DEBUGGER_ID_X86_IA32_WIN32_USER : Int) (dbg : Host) (g : Globals)
    (n : Notification) : Option Returned :=
  let r := tryBlock DEBUGGER_ID_X86_IA32_WIN32_USER dbg g n
  match r.outcome with
  | Outcome.completed => some { ret := 0, globals := r.globals, trace := r.trace }
  | Outcome.threw t =>
    some { ret := 0, globals := r.globals, trace := r.trace ++ [Effect.msg (catchLine t)] }
  | Outcome.undefined => none

/-- One notification as the host debugger delivers it: the state of the host
at that moment and the notification. -/
structure Step where
  host : Host
  note : Notification

/-- The host debugger delivering a sequence of notifications, one call of
`callback` each, a call starting only when the one before has returned. The
result is the globals after the last call and everything done, in order. -/
def deliver (DEBUGGER_ID_X86_IA32_WIN32_USER : Int) (g : Globals) :
    List Step → Option (Globals × List Effect)
  | [] => some (g, [])
  | s :: rest =>
    match callback DEBUGGER_ID_X86_IA32_WIN32_USER s.host g s.note with
    | none => none
    | some r =>
      match deliver DEBUGGER_ID_X86_IA32_WIN32_USER r.globals rest with
      | none => none
      | some (g2, tr) => some (g2, r.trace ++ tr)

/-- The notification is a process start or a process attach. -/
def Notification.isStartOrAttach (n : Notification) : Bool :=
  match n with
  | Notification.dbg_process_attach _ => true
  | Notification.dbg_process_start _ _ => true
  | _ => false

/-- The member call `callback` forwards for a notification, when it has one. -/
def Notification.forwarded (n : Notification) : Option Call :=
  match n with
  | Notification.dbg_process_attach pid => some (Call.handleDebuggerAttach pid)
  | Notification.dbg_process_start pid base => some (Call.handleDebuggerStart pid base)
  | Notification.dbg_process_exit => some Call.handleDebuggerExit
  | Notification.dbg_bpt tid ea => some (Call.handleBreakpoint tid ea)
  | Notification.dbg_exception code => some (Call.handleException code)
  | Notification.other _ => none

/-- The member calls of a trace, in order, each with the session that received
it. -/
def callsOf (tr : List Effect) : List (Session × Call) :=
  tr.filterMap fun e =>
    match e with
    | Effect.call s c => some (s, c)
    | _ => none

/-- The sessions constructed in a trace, in order. -/
def constructedIn (tr : List Effect) : List Session :=
  tr.filterMap fun e =>
    match e with
    | Effect.constructed s => some s
    | _ => none

/-- The class `createSession` instantiates for a debugger state. -/
def sessionKindFor (d : DebuggerState) : Option SessionKind :=
  match d with
  | DebuggerState.LocalWin32 => some SessionKind.LocalStealthSession
  | DebuggerState.RemoteWin32 => some SessionKind.RemoteStealthSession
  | DebuggerState.Other => none

/-! Remote stealth session (RemoteStealthSession.h) -/

/-- What a member of a remote session can do towards the remote server: the two
private members `connectToServer` and `sendRemoteCommand`. `Item` stands for
`RSProtocolItem`, whose declaration is not among the sources. -/
inductive RemoteAction (Item : Type) where
  | connectToServer
  | sendRemoteCommand (item : Item)

/-- The data members of `RemoteStealthSession` (RemoteStealthSession.h, lines 38
to 42). The types of the first four come from headers that are not among the
sources and are parameters; `client_` is a `boost::shared_ptr`, empty or
pointing to a client. -/
structure RemoteStealthSession (Client IoService Resolver Logger : Type) where
  client_ : Option Client
  ioService_ : IoService
  resolver_ : Resolver
  logger_ : Logger
  currentProfile_ : HideDebuggerProfile

/-- Member `handleBreakpoint` of `RemoteStealthSession`: the body is empty. The
result is the session after the call and what the call did towards the
server. -/
def RemoteStealthSession.handleBreakpoint {Client IoService Resolver Logger : Type}
    (Item : Type) (self : RemoteStealthSession Client IoService Resolver Logger)
    (_threadID : Nat) (_address : Nat) :
    RemoteStealthSession Client IoService Resolver Logger × List (RemoteAction Item) :=
  (self, [])

/-- Member `handleException` of `RemoteStealthSession`: the body is empty. -/
def RemoteStealthSession.handleException {Client IoService Resolver Logger : Type}
    (Item : Type) (self : RemoteStealthSession Client IoService Resolver Logger)
    (_exceptionCode : Nat) :
    RemoteStealthSession Client IoService Resolver Logger × List (RemoteAction Item) :=
  (self, [])

/-! Notions used in the statements -/

/-- The construction `createSession` performs for debugger state `d` returns an
object (it neither throws nor is undefined). -/
def constructs (dbg : Host) (d : DebuggerState) : Bool :=
  match createSession dbg 0 d with
  | Exec.ok _ => true
  | _ => false

/-- The dispatcher invariant: a debugger state other than `Other` implies that
`session_` points to a session. -/
def holdsSessionWhenActive (g : Globals) : Prop :=
  g.debuggerState_ ≠ DebuggerState.Other → g.session_ ≠ none

instance (g : Globals) : Decidable (holdsSessionWhenActive g) := by
  unfold holdsSessionWhenActive
  infer_instance

/-- What the `catch` handlers add to the trace of a call that threw `t`, and
nothing for a call that returned. -/
def caught (thrown : Option Thrown) : List Effect :=
  match thrown with
  | none => []
  | some t => [Effect.msg (catchLine t)]

/-- Globals that hold a local session from an earlier debugging run. -/
def holdingLocal : Globals :=
  { session_ := some { kind := SessionKind.LocalStealthSession, ident := 0 },
    debuggerState_ := DebuggerState.LocalWin32,
    made := 1 }

/-! Hosts used as concrete inputs -/

/-- A host in which every construction succeeds and no handler throws; the
classifier facts are the three arguments. -/
def quietHost (is_remote : Bool) (id : Int) (windbgValue : Nat) : Host :=
  { is_remote := is_remote
    id := id
    altval := fun _ _ => windbgValue
    getCurrentProfileFile := Except.ok "default.uberstealth"
    readProfileFromFile := fun _ =>
      Except.ok { name := "default", toggles := [], resources := [] }
    constructLocal := fun _ => none
    handler := fun _ _ => none }

/-- A host whose profile file cannot be read: the profile reader throws a
`std::runtime_error`, and so does the constructor of the local session, which
reads the same file. -/
def unreadableProfileHost (is_remote : Bool) (id : Int) (windbgValue : Nat) : Host :=
  { is_remote := is_remote
    id := id
    altval := fun _ _ => windbgValue
    getCurrentProfileFile := Except.ok "default.uberstealth"
    readProfileFromFile := fun _ => Except.error (Thrown.stdException "cannot read profile")
    constructLocal := fun _ => some (Thrown.stdException "cannot read profile")
    handler := fun _ _ => none }

/-- A host in which every construction succeeds and every handler throws. -/
def throwingHost (is_remote : Bool) (id : Int) (windbgValue : Nat) (t : Thrown) : Host :=
  { is_remote := is_remote
    id := id
    altval := fun _ _ => windbgValue
    getCurrentProfileFile := Except.ok "default.uberstealth"
    readProfileFromFile := fun _ =>
      Except.ok { name := "default", toggles := [], resources := [] }
    constructLocal := fun _ => none
    handler := fun _ _ => some t }

/-! Classifier: lemmas and theorems -/

/-- The value `updateDebuggerState` stores does not depend on the globals it
starts from, and it touches nothing else. -/
theorem updateDebuggerState_eq (native : Int) (dbg : Host) (g : Globals) :
    updateDebuggerState native dbg g =
      { g with debuggerState_ := classification native dbg } := by
  unfold classification getDebuggerState updateDebuggerState
  split <;> [skip; split] <;> rfl

/-- C1: `updateDebuggerState` follows the ordered first-match-wins rule over the
three facts it reads. The stored state is `LocalWin32` exactly when (backend is
the native win32 user backend and the debugger is not remote) or `isLocalWindbg`
is true, where `isLocalWindbg` is true exactly when alternate value 2 of
`$ windbg_params` is zero; otherwise it is `RemoteWin32` exactly when the
backend is native and the debugger is remote; otherwise it is `Other`. In
particular a non-remote native debugger always yields `LocalWin32`. Nothing but
the state is written. -/
theorem updateDebuggerState_first_match (native : Int) (dbg : Host) (g : Globals) :
    ((updateDebuggerState native dbg g).debuggerState_ = DebuggerState.LocalWin32 ↔
        (dbg.id = native ∧ dbg.is_remote = false) ∨ isLocalWindbg dbg = true) ∧
    ((updateDebuggerState native dbg g).debuggerState_ = DebuggerState.RemoteWin32 ↔
        ¬ ((dbg.id = native ∧ dbg.is_remote = false) ∨ isLocalWindbg dbg = true) ∧
          (dbg.id = native ∧ dbg.is_remote = true)) ∧
    ((updateDebuggerState native dbg g).debuggerState_ = DebuggerState.Other ↔
        ¬ ((dbg.id = native ∧ dbg.is_remote = false) ∨ isLocalWindbg dbg = true) ∧
          ¬ (dbg.id = native ∧ dbg.is_remote = true)) ∧
    (isLocalWindbg dbg = true ↔ dbg.altval "$ windbg_params" 2 = 0) ∧
    (dbg.is_remote = false → dbg.id = native →
        (updateDebuggerState native dbg g).debuggerState_ = DebuggerState.LocalWin32) ∧
    (updateDebuggerState native dbg g).session_ = g.session_ ∧
    (updateDebuggerState native dbg g).made = g.made := by
  have hw : isLocalWindbg dbg = true ↔ dbg.altval "$ windbg_params" 2 = 0 := by
    simp [isLocalWindbg]
  refine ⟨?_, ?_, ?_, hw, ?_, ?_, ?_⟩ <;>
    unfold updateDebuggerState isLocalWin32Debugger isWin32RemoteDebugger <;>
    cases hr : dbg.is_remote <;> cases hl : isLocalWindbg dbg <;>
    by_cases hid : dbg.id = native <;> simp [hid]

/-- Witness for C1 at a local native debugger whose windbg value is 7. -/
theorem updateDebuggerState_first_match_witness :
    (updateDebuggerState 0 (quietHost false 0 7) Globals.initial).debuggerState_ =
      DebuggerState.LocalWin32 :=
  (updateDebuggerState_first_match 0 (quietHost false 0 7) Globals.initial).2.2.2.2.1 rfl rfl

/-- C2, counterexample: a remote debugger with the native backend whose
`$ windbg_params` value 2 is zero is classified `LocalWin32`, not
`RemoteWin32`. -/
theorem remote_native_local_windbg_is_local :
    (quietHost true 0 0).is_remote = true ∧ (quietHost true 0 0).id = 0 ∧
    (updateDebuggerState 0 (quietHost true 0 0) Globals.initial).debuggerState_ =
      DebuggerState.LocalWin32 ∧
    (updateDebuggerState 0 (quietHost true 0 0) Globals.initial).debuggerState_ ≠
      DebuggerState.RemoteWin32 := by
  refine ⟨rfl, rfl, rfl, ?_⟩
  decide

/-- C2, amended: for every classifier input with is-remote true, backend id
equal to the native win32 user backend and `isLocalWindbg` false,
`updateDebuggerState` sets the state to `RemoteWin32`. -/
theorem updateDebuggerState_remote_native (native : Int) (dbg : Host) (g : Globals)
    (hremote : dbg.is_remote = true) (hid : dbg.id = native)
    (hwindbg : isLocalWindbg dbg = false) :
    (updateDebuggerState native dbg g).debuggerState_ = DebuggerState.RemoteWin32 := by
  simp [updateDebuggerState, isLocalWin32Debugger, isWin32RemoteDebugger, hremote, hid, hwindbg]

/-- Witness for the amended C2: a remote native debugger whose windbg value is
7. -/
theorem updateDebuggerState_remote_native_witness :
    (updateDebuggerState 0 (quietHost true 0 7) Globals.initial).debuggerState_ =
      DebuggerState.RemoteWin32 :=
  updateDebuggerState_remote_native 0 (quietHost true 0 7) Globals.initial rfl rfl rfl

/-- C3, counterexample: the state is not a function of (is-remote, backend id)
alone. Two hosts that agree on both and differ in `$ windbg_params` value 2
are classified differently. -/
theorem classification_not_function_of_remote_and_id :
    ¬ ∀ (native : Int) (d1 d2 : Host) (g1 g2 : Globals),
        d1.is_remote = d2.is_remote → d1.id = d2.id →
        (updateDebuggerState native d1 g1).debuggerState_ =
          (updateDebuggerState native d2 g2).debuggerState_ := by
  intro h
  have h0 := h 0 (quietHost true 0 0) (quietHost true 0 7) Globals.initial Globals.initial rfl rfl
  revert h0
  decide

/-- C3, amended: classification is a function of (is-remote, backend id, whether
`$ windbg_params` value 2 is zero) alone. Two runs of `updateDebuggerState` that
agree on these three store the same state, whatever the previous globals and
whatever else the host holds. -/
theorem classification_function_of_three_facts (native : Int) (d1 d2 : Host)
    (g1 g2 : Globals) (hremote : d1.is_remote = d2.is_remote) (hid : d1.id = d2.id)
    (hwindbg : (d1.altval "$ windbg_params" 2 = 0 ↔ d2.altval "$ windbg_params" 2 = 0)) :
    (updateDebuggerState native d1 g1).debuggerState_ =
      (updateDebuggerState native d2 g2).debuggerState_ := by
  have hw : isLocalWindbg d1 = isLocalWindbg d2 := by
    simp only [isLocalWindbg]
    by_cases h1 : d1.altval "$ windbg_params" 2 = 0
    · simp [h1, hwindbg.mp h1]
    · have h2 : ¬ d2.altval "$ windbg_params" 2 = 0 := fun h => h1 (hwindbg.mpr h)
      simp [h1, h2]
  simp only [updateDebuggerState, isLocalWin32Debugger, isWin32RemoteDebugger, hremote, hid, hw]
  split <;> [skip; split] <;> rfl

/-- Witness for the amended C3: two hosts with different windbg values (7 and
9), different handlers and different previous globals. -/
theorem classification_function_of_three_facts_witness :
    (updateDebuggerState 0 (quietHost true 0 7) Globals.initial).debuggerState_ =
      (updateDebuggerState 0 (throwingHost true 0 9 Thrown.unknown)
        { session_ := some { kind := SessionKind.LocalStealthSession, ident := 0 },
          debuggerState_ := DebuggerState.LocalWin32, made := 1 }).debuggerState_ :=
  classification_function_of_three_facts 0 (quietHost true 0 7)
    (throwingHost true 0 9 Thrown.unknown) Globals.initial _ rfl rfl (by decide)

/-! Dispatcher: lemmas -/

/-- After `updateDebuggerState`, `getDebuggerState` reads the classification. -/
theorem getDebuggerState_update (native : Int) (dbg : Host) (g : Globals) :
    getDebuggerState (updateDebuggerState native dbg g) = classification native dbg := by
  rw [updateDebuggerState_eq]; rfl

/-- A construction that succeeds yields an object of the class that belongs to
the debugger state, with the identity asked for. -/
theorem createSession_of_constructs (dbg : Host) (d : DebuggerState)
    (h : constructs dbg d = true) :
    ∃ k, sessionKindFor d = some k ∧
      ∀ next, createSession dbg next d = Exec.ok { kind := k, ident := next } := by
  cases d
  · refine ⟨SessionKind.LocalStealthSession, rfl, fun next => ?_⟩
    revert h
    simp only [constructs, createSession]
    cases dbg.getCurrentProfileFile with
    | error t => simp
    | ok path =>
      dsimp only
      cases dbg.constructLocal path <;> simp
  · refine ⟨SessionKind.RemoteStealthSession, rfl, fun next => ?_⟩
    revert h
    simp only [constructs, createSession]
    cases dbg.getCurrentProfileFile with
    | error t => simp
    | ok path =>
      dsimp only
      cases constructRemote dbg path <;> simp
  · simp [constructs, createSession] at h

/-- The two start cases of the `switch` share one shape: classify, then, unless
the state is `Other`, replace the session and forward the call. -/
theorem tryBlock_start_or_attach_eq (native : Int) (dbg : Host) (g : Globals)
    (n : Notification) (c : Call)
    (hn : n.isStartOrAttach = true) (hf : n.forwarded = some c) :
    tryBlock native dbg g n =
      if classification native dbg ≠ DebuggerState.Other then
        (assignSession dbg { g with debuggerState_ := classification native dbg }).andThen
          fun g2 => forward dbg g2 c
      else
        { outcome := Outcome.completed,
          globals := { g with debuggerState_ := classification native dbg },
          trace := [] } := by
  cases n <;> simp [Notification.isStartOrAttach] at hn <;>
    simp only [Notification.forwarded, Option.some.injEq] at hf <;> subst hf <;>
    simp only [tryBlock, updateDebuggerState_eq, getDebuggerState]

/-- The three forwarding cases of the `switch` share one shape: unless the
state is `Other`, forward the call. -/
theorem tryBlock_later_eq (native : Int) (dbg : Host) (g : Globals)
    (n : Notification) (c : Call)
    (hn : n.isStartOrAttach = false) (hf : n.forwarded = some c) :
    tryBlock native dbg g n =
      if g.debuggerState_ ≠ DebuggerState.Other then forward dbg g c
      else { outcome := Outcome.completed, globals := g, trace := [] } := by
  cases n <;> simp [Notification.isStartOrAttach] at hn <;>
    simp only [Notification.forwarded, Option.some.injEq, reduceCtorEq] at hf <;>
    subst hf <;> simp only [tryBlock, getDebuggerState]

/-- A code that matches no `case` label: the `switch` does nothing. -/
theorem tryBlock_other (native : Int) (dbg : Host) (g : Globals) (code : Int) :
    tryBlock native dbg g (Notification.other code) =
      { outcome := Outcome.completed, globals := g, trace := [] } := rfl

/-- Every notification is a start or attach, or forwards a call without
classifying, or is a code the `switch` does not handle. -/
theorem Notification.trichotomy (n : Notification) :
    (n.isStartOrAttach = true ∧ ∃ c, n.forwarded = some c) ∨
    (n.isStartOrAttach = false ∧ ∃ c, n.forwarded = some c) ∨
    (∃ code, n = Notification.other code) := by
  cases n <;> simp [Notification.isStartOrAttach, Notification.forwarded]

/-- The `try` block on a start or attach notification classified `Other`:
only the state is written. -/
theorem tryBlock_unsupported (native : Int) (dbg : Host) (g : Globals) (n : Notification)
    (hn : n.isStartOrAttach = true)
    (hc : classification native dbg = DebuggerState.Other) :
    tryBlock native dbg g n =
      { outcome := Outcome.completed,
        globals := { g with debuggerState_ := DebuggerState.Other },
        trace := [] } := by
  rcases Notification.trichotomy n with ⟨_, c, hf⟩ | ⟨h2, _⟩ | ⟨code, rfl⟩
  · rw [tryBlock_start_or_attach_eq native dbg g n c hn hf]
    simp [hc]
  · rw [hn] at h2; cases h2
  · cases hn

/-- The `try` block on any notification that is not a start or an attach, in
state `Other`: nothing happens. -/
theorem tryBlock_dropped (native : Int) (dbg : Host) (g : Globals) (n : Notification)
    (hn : n.isStartOrAttach = false)
    (hg : g.debuggerState_ = DebuggerState.Other) :
    tryBlock native dbg g n =
      { outcome := Outcome.completed, globals := g, trace := [] } := by
  rcases Notification.trichotomy n with ⟨h1, _⟩ | ⟨_, c, hf⟩ | ⟨code, rfl⟩
  · rw [hn] at h1; cases h1
  · rw [tryBlock_later_eq native dbg g n c hn hf]
    simp [hg]
  · rfl

/-- The `try` block on a start or attach notification classified `d`, not
`Other`, when construction succeeds: the new session replaces the held one and
receives the call. -/
theorem tryBlock_start_or_attach (native : Int) (dbg : Host) (g : Globals)
    (n : Notification) (c : Call) (k : SessionKind)
    (hn : n.isStartOrAttach = true) (hf : n.forwarded = some c)
    (hd : classification native dbg ≠ DebuggerState.Other)
    (hk : ∀ next, createSession dbg next (classification native dbg) =
      Exec.ok { kind := k, ident := next }) :
    tryBlock native dbg g n =
      { outcome :=
          match dbg.handler { kind := k, ident := g.made } c with
          | none => Outcome.completed
          | some t => Outcome.threw t,
        globals :=
          { session_ := some { kind := k, ident := g.made },
            debuggerState_ := classification native dbg,
            made := g.made + 1 },
        trace := Effect.constructed { kind := k, ident := g.made } ::
          (releasedBy g.session_ ++ [Effect.call { kind := k, ident := g.made } c]) } := by
  rw [tryBlock_start_or_attach_eq native dbg g n c hn hf, if_pos hd]
  simp only [assignSession, getDebuggerState, hk, Run.andThen, forward]
  cases dbg.handler { kind := k, ident := g.made } c <;> simp

/-- The `try` block on a start or attach notification classified `d`, not
`Other`, when construction throws: the state is already written, `session_` is
as it was, nothing is called. -/
theorem tryBlock_construction_throws (native : Int) (dbg : Host) (g : Globals)
    (n : Notification) (t : Thrown)
    (hn : n.isStartOrAttach = true)
    (hd : classification native dbg ≠ DebuggerState.Other)
    (hk : createSession dbg g.made (classification native dbg) = Exec.threw t) :
    tryBlock native dbg g n =
      { outcome := Outcome.threw t,
        globals := { g with debuggerState_ := classification native dbg },
        trace := [] } := by
  rcases Notification.trichotomy n with ⟨_, c, hf⟩ | ⟨h2, _⟩ | ⟨code, rfl⟩
  · rw [tryBlock_start_or_attach_eq native dbg g n c hn hf, if_pos hd]
    simp only [assignSession, getDebuggerState, hk, Run.andThen]
  · rw [hn] at h2; cases h2
  · cases hn

/-- The `try` block on an exit, breakpoint or exception notification in a state
other than `Other` with a session held: the call goes to the held session. -/
theorem tryBlock_forwarded (native : Int) (dbg : Host) (g : Globals)
    (n : Notification) (c : Call) (s : Session)
    (hn : n.isStartOrAttach = false) (hf : n.forwarded = some c)
    (hg : g.debuggerState_ ≠ DebuggerState.Other) (hs : g.session_ = some s) :
    tryBlock native dbg g n =
      { outcome :=
          match dbg.handler s c with
          | none => Outcome.completed
          | some t => Outcome.threw t,
        globals := g,
        trace := [Effect.call s c] } := by
  rw [tryBlock_later_eq native dbg g n c hn hf, if_pos hg]
  simp only [forward, hs]
  cases dbg.handler s c <;> simp

/-- The `try` block on an exit, breakpoint or exception notification in a state
other than `Other` with no session held: a member call through an empty
pointer. -/
theorem tryBlock_empty_pointer (native : Int) (dbg : Host) (g : Globals)
    (n : Notification) (c : Call)
    (hn : n.isStartOrAttach = false) (hf : n.forwarded = some c)
    (hg : g.debuggerState_ ≠ DebuggerState.Other) (hs : g.session_ = none) :
    tryBlock native dbg g n =
      { outcome := Outcome.undefined, globals := g, trace := [] } := by
  rw [tryBlock_later_eq native dbg g n c hn hf, if_pos hg]
  simp only [forward, hs]

/-- All of `callback` on a start or attach notification classified as a state
with session class `k`, when construction succeeds. -/
theorem callback_start_or_attach (native : Int) (dbg : Host) (g : Globals)
    (n : Notification) (c : Call) (k : SessionKind)
    (hn : n.isStartOrAttach = true) (hf : n.forwarded = some c)
    (hk : sessionKindFor (classification native dbg) = some k)
    (hc : constructs dbg (classification native dbg) = true) :
    callback native dbg g n =
      some { ret := 0,
             globals :=
              { session_ := some { kind := k, ident := g.made },
                debuggerState_ := classification native dbg,
                made := g.made + 1 },
             trace := Effect.constructed { kind := k, ident := g.made } ::
              (releasedBy g.session_ ++ [Effect.call { kind := k, ident := g.made } c] ++
                caught (dbg.handler { kind := k, ident := g.made } c)) } := by
  have hd : classification native dbg ≠ DebuggerState.Other := by
    intro h; rw [h] at hk; cases hk
  obtain ⟨k2, hk2, hmk⟩ := createSession_of_constructs dbg _ hc
  rw [hk] at hk2
  cases hk2
  simp only [callback, tryBlock_start_or_attach native dbg g n c k hn hf hd hmk]
  cases dbg.handler { kind := k, ident := g.made } c <;> simp [caught]

/-- The calls in the trace of a start or attach that replaced the session: the
one forwarded call, on the new session. -/
theorem callsOf_replacement (old : Option Session) (new : Session) (c : Call)
    (thrown : Option Thrown) :
    callsOf (Effect.constructed new ::
      (releasedBy old ++ [Effect.call new c] ++ caught thrown)) = [(new, c)] := by
  cases old <;> cases thrown <;> simp [callsOf, releasedBy, caught]

/-- C4: for every dispatcher state and every start or attach notification
classified `LocalWin32` or `RemoteWin32` whose session construction succeeds,
`callback` returns 0 and leaves `session_` pointing to a newly constructed
session of the matching class (`LocalStealthSession` for `LocalWin32`,
`RemoteStealthSession` for `RemoteWin32`); the trace is: the construction, the
release of the session held before, one call on the new session
(`handleDebuggerAttach(pid)` for attach, `handleDebuggerStart(pid, base)` for
start) and the log line when that call threw. The only member call is that one,
on the new session; a session held before receives none. -/
theorem callback_replaces_session (native : Int) (dbg : Host) (g : Globals)
    (hd : classification native dbg ≠ DebuggerState.Other)
    (hc : constructs dbg (classification native dbg) = true) :
    ∃ k, sessionKindFor (classification native dbg) = some k ∧
      (classification native dbg = DebuggerState.LocalWin32 →
        k = SessionKind.LocalStealthSession) ∧
      (classification native dbg = DebuggerState.RemoteWin32 →
        k = SessionKind.RemoteStealthSession) ∧
      (∀ pid, ∃ r,
        callback native dbg g (Notification.dbg_process_attach pid) = some r ∧
        r.ret = 0 ∧
        r.globals.session_ = some { kind := k, ident := g.made } ∧
        r.globals.debuggerState_ = classification native dbg ∧
        r.trace = Effect.constructed { kind := k, ident := g.made } ::
          (releasedBy g.session_ ++
            [Effect.call { kind := k, ident := g.made } (Call.handleDebuggerAttach pid)] ++
            caught (dbg.handler { kind := k, ident := g.made } (Call.handleDebuggerAttach pid))) ∧
        callsOf r.trace = [({ kind := k, ident := g.made }, Call.handleDebuggerAttach pid)] ∧
        ∀ old c, g.session_ = some old → old.ident < g.made → (old, c) ∉ callsOf r.trace) ∧
      (∀ pid base, ∃ r,
        callback native dbg g (Notification.dbg_process_start pid base) = some r ∧
        r.ret = 0 ∧
        r.globals.session_ = some { kind := k, ident := g.made } ∧
        r.globals.debuggerState_ = classification native dbg ∧
        r.trace = Effect.constructed { kind := k, ident := g.made } ::
          (releasedBy g.session_ ++
            [Effect.call { kind := k, ident := g.made } (Call.handleDebuggerStart pid base)] ++
            caught (dbg.handler { kind := k, ident := g.made }
              (Call.handleDebuggerStart pid base))) ∧
        callsOf r.trace =
          [({ kind := k, ident := g.made }, Call.handleDebuggerStart pid base)] ∧
        ∀ old c, g.session_ = some old → old.ident < g.made → (old, c) ∉ callsOf r.trace) := by
  have _ := hd
  obtain ⟨k, hk, _⟩ := createSession_of_constructs dbg _ hc
  refine ⟨k, hk, ?_, ?_, ?_, ?_⟩
  · intro h; rw [h] at hk; cases hk; rfl
  · intro h; rw [h] at hk; cases hk; rfl
  · intro pid
    refine ⟨_, callback_start_or_attach native dbg g _ _ k rfl rfl hk hc, rfl, rfl, rfl, rfl,
      callsOf_replacement _ _ _ _, ?_⟩
    intro old c _ hlt hmem
    rw [callsOf_replacement] at hmem
    simp only [List.mem_singleton, Prod.mk.injEq] at hmem
    rw [hmem.1] at hlt
    exact Nat.lt_irrefl _ hlt
  · intro pid base
    refine ⟨_, callback_start_or_attach native dbg g _ _ k rfl rfl hk hc, rfl, rfl, rfl, rfl,
      callsOf_replacement _ _ _ _, ?_⟩
    intro old c _ hlt hmem
    rw [callsOf_replacement] at hmem
    simp only [List.mem_singleton, Prod.mk.injEq] at hmem
    rw [hmem.1] at hlt
    exact Nat.lt_irrefl _ hlt

/-- Witness for C4: a remote native debugger attaches to process 1234 while a
local session from an earlier run is held. The remote session with identity 1
replaces it and receives the one call. -/
theorem callback_replaces_session_witness :
    classification 0 (quietHost true 0 7) ≠ DebuggerState.Other ∧
    constructs (quietHost true 0 7) (classification 0 (quietHost true 0 7)) = true ∧
    ∃ r, callback 0 (quietHost true 0 7) holdingLocal (Notification.dbg_process_attach 1234) =
        some r ∧
      r.ret = 0 ∧
      r.globals.session_ = some { kind := SessionKind.RemoteStealthSession, ident := 1 } ∧
      callsOf r.trace =
        [({ kind := SessionKind.RemoteStealthSession, ident := 1 },
          Call.handleDebuggerAttach 1234)] := by
  refine ⟨by decide, by decide, ?_⟩
  obtain ⟨k, _, _, hremote, hattach, _⟩ :=
    callback_replaces_session 0 (quietHost true 0 7) holdingLocal (by decide) (by decide)
  obtain ⟨r, hr, hret, hsession, _, _, hcalls, _⟩ := hattach 1234
  have hk : k = SessionKind.RemoteStealthSession := hremote (by decide)
  subst hk
  exact ⟨r, hr, hret, hsession, hcalls⟩

/-- All of `callback` on a start or attach notification classified `Other`:
it returns 0, writes the state and does nothing else. -/
theorem callback_unsupported (native : Int) (dbg : Host) (g : Globals) (n : Notification)
    (hn : n.isStartOrAttach = true)
    (hc : classification native dbg = DebuggerState.Other) :
    callback native dbg g n =
      some { ret := 0,
             globals := { g with debuggerState_ := DebuggerState.Other },
             trace := [] } := by
  simp only [callback, tryBlock_unsupported native dbg g n hn hc]

/-- All of `callback` on a notification that is not a start or an attach, in
state `Other`: it returns 0 and does nothing. -/
theorem callback_dropped (native : Int) (dbg : Host) (g : Globals) (n : Notification)
    (hn : n.isStartOrAttach = false)
    (hg : g.debuggerState_ = DebuggerState.Other) :
    callback native dbg g n = some { ret := 0, globals := g, trace := [] } := by
  simp only [callback, tryBlock_dropped native dbg g n hn hg]

/-- In state `Other`, a sequence of notifications whose starts and attaches are
all classified `Other` leaves the globals as they are and does nothing. -/
theorem deliver_unsupported (native : Int) (steps : List Step) (g : Globals)
    (hg : g.debuggerState_ = DebuggerState.Other)
    (hs : ∀ s ∈ steps, s.note.isStartOrAttach = true →
      classification native s.host = DebuggerState.Other) :
    deliver native g steps = some (g, []) := by
  induction steps with
  | nil => rfl
  | cons s rest ih =>
    have hrest : ∀ s2 ∈ rest, s2.note.isStartOrAttach = true →
        classification native s2.host = DebuggerState.Other :=
      fun s2 h2 => hs s2 (List.mem_cons_of_mem _ h2)
    cases hn : s.note.isStartOrAttach with
    | true =>
      have hcb := callback_unsupported native s.host g s.note hn
        (hs s (List.mem_cons_self _ _) hn)
      have hsame : ({ g with debuggerState_ := DebuggerState.Other } : Globals) = g := by
        cases g; simp only [Globals.mk.injEq, true_and] at hg ⊢; simp [hg]
      rw [hsame] at hcb
      simp only [deliver, hcb, ih hrest, List.append_nil]
    | false =>
      have hcb := callback_dropped native s.host g s.note hn hg
      simp only [deliver, hcb, ih hrest, List.append_nil]

/-- C5: once a start or attach notification has been classified `Other`, the
notification itself and every notification that follows, up to the next start
or attach classified `LocalWin32` or `RemoteWin32`, construct no session and
invoke no handler on any session, whether one is held or not: every call of
`callback` returns, the whole trace is empty, `session_` is as it was and the
state is `Other`. -/
theorem unsupported_drops_everything (native : Int) (dbg : Host) (g : Globals)
    (n : Notification) (steps : List Step)
    (hn : n.isStartOrAttach = true)
    (hc : classification native dbg = DebuggerState.Other)
    (hs : ∀ s ∈ steps, s.note.isStartOrAttach = true →
      classification native s.host = DebuggerState.Other) :
    deliver native g ({ host := dbg, note := n } :: steps) =
      some ({ g with debuggerState_ := DebuggerState.Other }, []) := by
  simp only [deliver, callback_unsupported native dbg g n hn hc]
  rw [deliver_unsupported native steps _ rfl hs]
  rfl

/-- Witness for C5: a session is held, a remote debugger with a foreign backend
starts a process, then an exit, a breakpoint, an exception, an unknown code and
another unsupported attach arrive, all with handlers that would throw. -/
theorem unsupported_drops_everything_witness :
    (Notification.dbg_process_start 1234 4194304).isStartOrAttach = true ∧
    classification 0 (throwingHost true 5 7 Thrown.unknown) = DebuggerState.Other ∧
    deliver 0 holdingLocal
      ({ host := throwingHost true 5 7 Thrown.unknown,
         note := Notification.dbg_process_start 1234 4194304 } ::
        [{ host := throwingHost true 5 7 Thrown.unknown, note := Notification.dbg_process_exit },
         { host := throwingHost true 5 7 Thrown.unknown, note := Notification.dbg_bpt 1 4198400 },
         { host := throwingHost true 5 7 Thrown.unknown, note := Notification.dbg_exception 5 },
         { host := throwingHost true 5 7 Thrown.unknown, note := Notification.other 99 },
         { host := throwingHost true 5 7 Thrown.unknown,
           note := Notification.dbg_process_attach 1234 }]) =
      some ({ holdingLocal with debuggerState_ := DebuggerState.Other }, []) :=
  ⟨rfl, by decide,
    unsupported_drops_everything 0 (throwingHost true 5 7 Thrown.unknown) holdingLocal
      (Notification.dbg_process_start 1234 4194304) _ rfl (by decide)
      (by
        intro s hs _
        simp only [List.mem_cons, List.mem_singleton, List.not_mem_nil, or_false] at hs
        rcases hs with h | h | h | h | h <;> subst h <;> decide)⟩

/-- C6, counterexample: a local session is held, a remote debugger with a
foreign backend starts a process. The notification is classified `Other` and
`callback` returns with the session still held. -/
theorem unsupported_start_keeps_held_session :
    classification 0 (quietHost true 5 7) = DebuggerState.Other ∧
    callback 0 (quietHost true 5 7) holdingLocal (Notification.dbg_process_start 1234 4194304) =
      some { ret := 0,
             globals :=
              { session_ := some { kind := SessionKind.LocalStealthSession, ident := 0 },
                debuggerState_ := DebuggerState.Other,
                made := 1 },
             trace := [] } ∧
    ¬ ∀ r, callback 0 (quietHost true 5 7) holdingLocal
        (Notification.dbg_process_start 1234 4194304) = some r → r.globals.session_ = none := by
  refine ⟨by decide, by decide, ?_⟩
  intro h
  have h2 := h _ (by decide :
    callback 0 (quietHost true 5 7) holdingLocal (Notification.dbg_process_start 1234 4194304) =
      some { ret := 0,
             globals :=
              { session_ := some { kind := SessionKind.LocalStealthSession, ident := 0 },
                debuggerState_ := DebuggerState.Other,
                made := 1 },
             trace := [] })
  cases h2

/-- C6, amended: for every dispatcher state, a start or attach notification
classified `Other` leaves the held session in place, neither released nor
called: `callback` returns 0, `session_` is what it was, the state is `Other`
and the trace is empty. -/
theorem unsupported_leaves_session (native : Int) (dbg : Host) (g : Globals)
    (n : Notification) (hn : n.isStartOrAttach = true)
    (hc : classification native dbg = DebuggerState.Other) :
    ∃ r, callback native dbg g n = some r ∧ r.ret = 0 ∧
      r.globals.session_ = g.session_ ∧
      r.globals.debuggerState_ = DebuggerState.Other ∧
      r.trace = [] :=
  ⟨_, callback_unsupported native dbg g n hn hc, rfl, rfl, rfl, rfl⟩

/-- Witness for the amended C6, at the input of the counterexample. -/
theorem unsupported_leaves_session_witness :
    (Notification.dbg_process_start 1234 4194304).isStartOrAttach = true ∧
    classification 0 (quietHost true 5 7) = DebuggerState.Other ∧
    ∃ r, callback 0 (quietHost true 5 7) holdingLocal
        (Notification.dbg_process_start 1234 4194304) = some r ∧ r.ret = 0 ∧
      r.globals.session_ = holdingLocal.session_ ∧
      r.globals.debuggerState_ = DebuggerState.Other ∧
      r.trace = [] :=
  ⟨rfl, by decide,
    unsupported_leaves_session 0 (quietHost true 5 7) holdingLocal _ rfl (by decide)⟩

/-- All of `callback` on a start or attach notification classified as a state
other than `Other`, when construction throws `t`: the state stays as
classified, `session_` stays as it was, the failure is logged, 0 is returned. -/
theorem callback_construction_throws (native : Int) (dbg : Host) (g : Globals)
    (n : Notification) (t : Thrown)
    (hn : n.isStartOrAttach = true)
    (hd : classification native dbg ≠ DebuggerState.Other)
    (hk : createSession dbg g.made (classification native dbg) = Exec.threw t) :
    callback native dbg g n =
      some { ret := 0,
             globals := { g with debuggerState_ := classification native dbg },
             trace := [Effect.msg (catchLine t)] } := by
  simp only [callback, tryBlock_construction_throws native dbg g n t hn hd hk, List.nil_append]

/-- C7, the code at the failing inputs. First run: from the initial globals a
local native debugger starts a process and the profile cannot be read;
`callback` returns 0 with state `LocalWin32` and no session, and the exit
notification that follows is a member call through the empty `session_`; the
same with a remote native debugger that attaches, where the constructor of
`RemoteStealthSession` fails to read the profile. Second run: a first start succeeds, the process exits, a second start fails on
the profile; the session of the first run is still held, the state is
`LocalWin32`, and the breakpoint notification that follows is forwarded to that
session. -/
theorem construction_failure_leaves_state_active :
    callback 0 (unreadableProfileHost false 0 7) Globals.initial
        (Notification.dbg_process_start 1234 4194304) =
      some { ret := 0,
             globals :=
              { session_ := none, debuggerState_ := DebuggerState.LocalWin32, made := 0 },
             trace := [Effect.msg (catchLine (Thrown.stdException "cannot read profile"))] } ∧
    callback 0 (quietHost false 0 7)
        { session_ := none, debuggerState_ := DebuggerState.LocalWin32, made := 0 }
        Notification.dbg_process_exit = none ∧
    deliver 0 Globals.initial
        [{ host := unreadableProfileHost true 0 7,
           note := Notification.dbg_process_attach 1234 },
         { host := quietHost true 0 7, note := Notification.dbg_process_exit }] = none ∧
    deliver 0 Globals.initial
        [{ host := quietHost false 0 7, note := Notification.dbg_process_start 1234 4194304 },
         { host := quietHost false 0 7, note := Notification.dbg_process_exit },
         { host := unreadableProfileHost false 0 7,
           note := Notification.dbg_process_start 5678 4194304 },
         { host := quietHost false 0 7, note := Notification.dbg_bpt 1 4198400 }] =
      some ({ session_ := some { kind := SessionKind.LocalStealthSession, ident := 0 },
              debuggerState_ := DebuggerState.LocalWin32, made := 1 },
            [Effect.constructed { kind := SessionKind.LocalStealthSession, ident := 0 },
             Effect.call { kind := SessionKind.LocalStealthSession, ident := 0 }
               (Call.handleDebuggerStart 1234 4194304),
             Effect.call { kind := SessionKind.LocalStealthSession, ident := 0 }
               Call.handleDebuggerExit,
             Effect.msg (catchLine (Thrown.stdException "cannot read profile")),
             Effect.call { kind := SessionKind.LocalStealthSession, ident := 0 }
               (Call.handleBreakpoint 1 4198400)]) := by
  refine ⟨?_, ?_, ?_, ?_⟩ <;> decide

/-- The only way `callback` does not complete: an exit, breakpoint or exception
notification in a state other than `Other` with an empty `session_`. Nothing is
thrown on that path; the member call through the empty pointer is undefined. -/
theorem callback_undefined_iff (native : Int) (dbg : Host) (g : Globals) (n : Notification) :
    callback native dbg g n = none ↔
      n.isStartOrAttach = false ∧ n.forwarded ≠ none ∧
        g.debuggerState_ ≠ DebuggerState.Other ∧ g.session_ = none := by
  rcases Notification.trichotomy n with ⟨hn, c, hf⟩ | ⟨hn, c, hf⟩ | ⟨code, rfl⟩
  · constructor
    · intro h
      by_cases hd : classification native dbg = DebuggerState.Other
      · rw [callback_unsupported native dbg g n hn hd] at h; cases h
      · simp only [callback, tryBlock_start_or_attach_eq native dbg g n c hn hf, ne_eq, hd,
          not_false_eq_true, if_true, assignSession, getDebuggerState, Run.andThen] at h
        cases hcs : createSession dbg g.made (classification native dbg) with
        | threw t => simp [hcs] at h
        | undefined =>
          cases hcl : classification native dbg with
          | Other => exact absurd hcl hd
          | LocalWin32 =>
            rw [hcl] at hcs
            simp only [createSession] at hcs
            cases hp : dbg.getCurrentProfileFile with
            | error t => simp [hp] at hcs
            | ok path =>
              simp only [hp] at hcs
              cases hl : dbg.constructLocal path <;> simp [hl] at hcs
          | RemoteWin32 =>
            rw [hcl] at hcs
            simp only [createSession] at hcs
            cases hp : dbg.getCurrentProfileFile with
            | error t => simp [hp] at hcs
            | ok path =>
              simp only [hp] at hcs
              cases hl : constructRemote dbg path <;> simp [hl] at hcs
        | ok s =>
          simp only [hcs, forward] at h
          cases hh : dbg.handler s c <;> simp [hh] at h
    · rintro ⟨h1, _⟩
      rw [hn] at h1; cases h1
  · constructor
    · intro h
      refine ⟨hn, by simp [hf], ?_, ?_⟩
      · intro hg
        rw [callback_dropped native dbg g n hn hg] at h; cases h
      · by_cases hg : g.debuggerState_ = DebuggerState.Other
        · rw [callback_dropped native dbg g n hn hg] at h; cases h
        · cases hs : g.session_ with
          | none => rfl
          | some s =>
            simp only [callback, tryBlock_forwarded native dbg g n c s hn hf hg hs] at h
            cases hh : dbg.handler s c <;> simp [hh] at h
    · rintro ⟨_, _, hg, hs⟩
      simp only [callback, tryBlock_empty_pointer native dbg g n c hn hf hg hs]
  · constructor
    · intro h; simp [callback, tryBlock_other] at h
    · rintro ⟨_, h2, _⟩
      simp [Notification.forwarded] at h2

/-- Whenever `callback` returns, it returns 0. -/
theorem callback_ret (native : Int) (dbg : Host) (g : Globals) (n : Notification)
    (r : Returned) (hr : callback native dbg g n = some r) : r.ret = 0 := by
  simp only [callback] at hr
  split at hr
  · cases hr; rfl
  · cases hr; rfl
  · cases hr

/-- A failure to obtain the profile path leaves `createSession` for either
session class. -/
theorem createSession_path_throws (dbg : Host) (next : Nat) (d : DebuggerState) (t : Thrown)
    (hd : d ≠ DebuggerState.Other) (hp : dbg.getCurrentProfileFile = Except.error t) :
    createSession dbg next d = Exec.threw t := by
  cases d
  · simp only [createSession, hp]
  · simp only [createSession, hp]
  · exact absurd rfl hd

/-- A failure of the constructor of `LocalStealthSession` leaves
`createSession`. -/
theorem createSession_local_throws (dbg : Host) (next : Nat) (path : String) (t : Thrown)
    (hp : dbg.getCurrentProfileFile = Except.ok path)
    (hl : dbg.constructLocal path = some t) :
    createSession dbg next DebuggerState.LocalWin32 = Exec.threw t := by
  simp only [createSession, hp, hl]

/-- A failure to read the profile in the constructor of `RemoteStealthSession`
leaves `createSession`. -/
theorem createSession_remote_throws (dbg : Host) (next : Nat) (path : String) (t : Thrown)
    (hp : dbg.getCurrentProfileFile = Except.ok path)
    (hr : dbg.readProfileFromFile path = Except.error t) :
    createSession dbg next DebuggerState.RemoteWin32 = Exec.threw t := by
  simp only [createSession, hp, constructRemote, hr]

/-- C8: for every notification, every dispatcher state and every failure `t`
(a `std::exception` or any other thrown value) raised by session construction
or by a session handler, `callback` catches it and returns 0, with the log line
of the matching `catch` handler as the last effect. Construction fails when the
profile path cannot be obtained, when the constructor of `LocalStealthSession`
throws, or when the constructor of `RemoteStealthSession` cannot read the
profile: the state stays as classified, `session_` as it was, nothing is
called. A handler fails on the session just constructed (start, attach) or on
the held session (exit, breakpoint, exception). A notification code outside the
five handled kinds returns 0, leaves the globals as they are and does nothing.
In every case where there is a session to call, `callback` returns, and it
never returns anything but 0. -/
theorem callback_catches_every_failure (native : Int) (dbg : Host) (g : Globals)
    (n : Notification) (t : Thrown) :
    (n.isStartOrAttach = true → classification native dbg ≠ DebuggerState.Other →
      dbg.getCurrentProfileFile = Except.error t →
      callback native dbg g n =
        some { ret := 0,
               globals := { g with debuggerState_ := classification native dbg },
               trace := [Effect.msg (catchLine t)] }) ∧
    (∀ path, n.isStartOrAttach = true →
      classification native dbg = DebuggerState.LocalWin32 →
      dbg.getCurrentProfileFile = Except.ok path → dbg.constructLocal path = some t →
      callback native dbg g n =
        some { ret := 0,
               globals := { g with debuggerState_ := DebuggerState.LocalWin32 },
               trace := [Effect.msg (catchLine t)] }) ∧
    (∀ path, n.isStartOrAttach = true →
      classification native dbg = DebuggerState.RemoteWin32 →
      dbg.getCurrentProfileFile = Except.ok path →
      dbg.readProfileFromFile path = Except.error t →
      callback native dbg g n =
        some { ret := 0,
               globals := { g with debuggerState_ := DebuggerState.RemoteWin32 },
               trace := [Effect.msg (catchLine t)] }) ∧
    (∀ c k, n.isStartOrAttach = true → n.forwarded = some c →
      sessionKindFor (classification native dbg) = some k →
      constructs dbg (classification native dbg) = true →
      dbg.handler { kind := k, ident := g.made } c = some t →
      callback native dbg g n =
        some { ret := 0,
               globals :=
                { session_ := some { kind := k, ident := g.made },
                  debuggerState_ := classification native dbg,
                  made := g.made + 1 },
               trace := Effect.constructed { kind := k, ident := g.made } ::
                (releasedBy g.session_ ++ [Effect.call { kind := k, ident := g.made } c] ++
                  [Effect.msg (catchLine t)]) }) ∧
    (∀ c s, n.isStartOrAttach = false → n.forwarded = some c →
      g.debuggerState_ ≠ DebuggerState.Other → g.session_ = some s →
      dbg.handler s c = some t →
      callback native dbg g n =
        some { ret := 0, globals := g,
               trace := [Effect.call s c, Effect.msg (catchLine t)] }) ∧
    (∀ code, callback native dbg g (Notification.other code) =
        some { ret := 0, globals := g, trace := [] }) ∧
    ((n.isStartOrAttach = true ∨ n.forwarded = none ∨
        g.debuggerState_ = DebuggerState.Other ∨ g.session_ ≠ none) →
      ∃ r, callback native dbg g n = some r ∧ r.ret = 0) ∧
    (∀ r, callback native dbg g n = some r → r.ret = 0) := by
  refine ⟨?_, ?_, ?_, ?_, ?_, ?_, ?_, ?_⟩
  · intro hn hd hp
    exact callback_construction_throws native dbg g n t hn hd
      (createSession_path_throws dbg g.made _ t hd hp)
  · intro path hn hcl hp hl
    have hd : classification native dbg ≠ DebuggerState.Other := by rw [hcl]; decide
    have h := callback_construction_throws native dbg g n t hn hd
      (by rw [hcl]; exact createSession_local_throws dbg g.made path t hp hl)
    rw [hcl] at h
    exact h
  · intro path hn hcl hp hr
    have hd : classification native dbg ≠ DebuggerState.Other := by rw [hcl]; decide
    have h := callback_construction_throws native dbg g n t hn hd
      (by rw [hcl]; exact createSession_remote_throws dbg g.made path t hp hr)
    rw [hcl] at h
    exact h
  · intro c k hn hf hk hc hh
    rw [callback_start_or_attach native dbg g n c k hn hf hk hc, hh]
    rfl
  · intro c s hn hf hg hs hh
    simp only [callback, tryBlock_forwarded native dbg g n c s hn hf hg hs, hh,
      List.singleton_append]
  · intro code
    simp only [callback, tryBlock_other]
  · intro hcase
    cases hcb : callback native dbg g n with
    | some r => exact ⟨r, rfl, callback_ret native dbg g n r hcb⟩
    | none =>
      obtain ⟨h1, h2, h3, h4⟩ := (callback_undefined_iff native dbg g n).mp hcb
      rcases hcase with h | h | h | h
      · rw [h1] at h; cases h
      · exact absurd h h2
      · exact absurd h h3
      · exact absurd h4 h
  · exact fun r hr => callback_ret native dbg g n r hr

/-- Witness for C8. A remote native debugger attaches and the constructor of
`RemoteStealthSession` cannot read the profile: the `std::exception` is caught
and 0 is returned. A breakpoint is forwarded to the held session, whose handler
throws a value that is not a `std::exception`: it is caught and 0 is
returned. -/
theorem callback_catches_every_failure_witness :
    ((Notification.dbg_process_attach 1234).isStartOrAttach = true ∧
      classification 0 (unreadableProfileHost true 0 7) = DebuggerState.RemoteWin32 ∧
      (unreadableProfileHost true 0 7).readProfileFromFile "default.uberstealth" =
        Except.error (Thrown.stdException "cannot read profile") ∧
      callback 0 (unreadableProfileHost true 0 7) Globals.initial
          (Notification.dbg_process_attach 1234) =
        some { ret := 0,
               globals :=
                { Globals.initial with debuggerState_ := DebuggerState.RemoteWin32 },
               trace :=
                [Effect.msg (catchLine (Thrown.stdException "cannot read profile"))] }) ∧
    ((throwingHost false 0 7 Thrown.unknown).handler
        { kind := SessionKind.LocalStealthSession, ident := 0 }
        (Call.handleBreakpoint 1 4198400) = some Thrown.unknown ∧
      callback 0 (throwingHost false 0 7 Thrown.unknown) holdingLocal
          (Notification.dbg_bpt 1 4198400) =
        some { ret := 0, globals := holdingLocal,
               trace := [Effect.call { kind := SessionKind.LocalStealthSession, ident := 0 }
                  (Call.handleBreakpoint 1 4198400),
                 Effect.msg (catchLine Thrown.unknown)] }) :=
  ⟨⟨rfl, by decide, rfl,
      (callback_catches_every_failure 0 (unreadableProfileHost true 0 7) Globals.initial
        (Notification.dbg_process_attach 1234)
        (Thrown.stdException "cannot read profile")).2.2.1
        "default.uberstealth" rfl (by decide) rfl rfl⟩,
    ⟨rfl,
      (callback_catches_every_failure 0 (throwingHost false 0 7 Thrown.unknown) holdingLocal
        (Notification.dbg_bpt 1 4198400) Thrown.unknown).2.2.2.2.1
        (Call.handleBreakpoint 1 4198400)
        { kind := SessionKind.LocalStealthSession, ident := 0 } rfl rfl (by decide) rfl rfl⟩⟩

/-- C9: for every state of a remote session and every argument,
`handleBreakpoint` and `handleException` return at once with the session as it
was, every data member unchanged (client connection, io service, resolver,
logger, profile), and do nothing towards the server: no connect, no command
sent. -/
theorem remote_breakpoint_exception_noop {Client IoService Resolver Logger : Type}
    (Item : Type) (self : RemoteStealthSession Client IoService Resolver Logger)
    (threadID address exceptionCode : Nat) :
    RemoteStealthSession.handleBreakpoint Item self threadID address = (self, []) ∧
    (RemoteStealthSession.handleBreakpoint Item self threadID address).1.client_ =
      self.client_ ∧
    (RemoteStealthSession.handleBreakpoint Item self threadID address).1.ioService_ =
      self.ioService_ ∧
    (RemoteStealthSession.handleBreakpoint Item self threadID address).1.resolver_ =
      self.resolver_ ∧
    (RemoteStealthSession.handleBreakpoint Item self threadID address).1.logger_ =
      self.logger_ ∧
    (RemoteStealthSession.handleBreakpoint Item self threadID address).1.currentProfile_ =
      self.currentProfile_ ∧
    RemoteStealthSession.handleException Item self exceptionCode = (self, []) ∧
    (RemoteStealthSession.handleException Item self exceptionCode).1.client_ =
      self.client_ ∧
    (RemoteStealthSession.handleException Item self exceptionCode).1.ioService_ =
      self.ioService_ ∧
    (RemoteStealthSession.handleException Item self exceptionCode).1.resolver_ =
      self.resolver_ ∧
    (RemoteStealthSession.handleException Item self exceptionCode).1.logger_ =
      self.logger_ ∧
    (RemoteStealthSession.handleException Item self exceptionCode).1.currentProfile_ =
      self.currentProfile_ :=
  ⟨rfl, rfl, rfl, rfl, rfl, rfl, rfl, rfl, rfl, rfl, rfl, rfl⟩

/-- One call of `callback` preserves the invariant when the construction it
attempts, if any, succeeds: it returns 0 and a state other than `Other` still
comes with a session. -/
theorem callback_preserves_invariant (native : Int) (dbg : Host) (g : Globals)
    (n : Notification) (hinv : holdsSessionWhenActive g)
    (hok : n.isStartOrAttach = true → classification native dbg ≠ DebuggerState.Other →
      constructs dbg (classification native dbg) = true) :
    ∃ r, callback native dbg g n = some r ∧ r.ret = 0 ∧ holdsSessionWhenActive r.globals := by
  rcases Notification.trichotomy n with ⟨hn, c, hf⟩ | ⟨hn, c, hf⟩ | ⟨code, rfl⟩
  · by_cases hd : classification native dbg = DebuggerState.Other
    · exact ⟨_, callback_unsupported native dbg g n hn hd, rfl, fun h => absurd rfl h⟩
    · have hc := hok hn hd
      obtain ⟨k, hk, _⟩ := createSession_of_constructs dbg _ hc
      exact ⟨_, callback_start_or_attach native dbg g n c k hn hf hk hc, rfl,
        fun _ h => by cases h⟩
  · by_cases hg : g.debuggerState_ = DebuggerState.Other
    · exact ⟨_, callback_dropped native dbg g n hn hg, rfl, hinv⟩
    · cases hs : g.session_ with
      | none => exact absurd hs (hinv hg)
      | some s =>
        refine ⟨{ ret := 0, globals := g,
                  trace := [Effect.call s c] ++ caught (dbg.handler s c) }, ?_, rfl, hinv⟩
        simp only [callback, tryBlock_forwarded native dbg g n c s hn hf hg hs]
        cases dbg.handler s c <;> simp [caught]
  · exact ⟨{ ret := 0, globals := g, trace := [] }, by simp only [callback, tryBlock_other],
      rfl, hinv⟩

/-- A sequence of notifications preserves the invariant when every construction
attempted succeeds: every call of `callback` returns, so no call goes through
an empty `session_`. -/
theorem deliver_preserves_invariant (native : Int) (steps : List Step) (g : Globals)
    (hinv : holdsSessionWhenActive g)
    (hok : ∀ s ∈ steps, s.note.isStartOrAttach = true →
      classification native s.host ≠ DebuggerState.Other →
      constructs s.host (classification native s.host) = true) :
    ∃ g2 tr, deliver native g steps = some (g2, tr) ∧ holdsSessionWhenActive g2 := by
  induction steps generalizing g with
  | nil => exact ⟨g, [], rfl, hinv⟩
  | cons s rest ih =>
    obtain ⟨r, hr, _, hinv2⟩ :=
      callback_preserves_invariant native s.host g s.note hinv (hok s (List.mem_cons_self _ _))
    obtain ⟨g2, tr, hd, hinv3⟩ :=
      ih r.globals hinv2 (fun s2 h2 => hok s2 (List.mem_cons_of_mem _ h2))
    exact ⟨g2, r.trace ++ tr, by simp only [deliver, hr, hd], hinv3⟩

/-- Delivering a sequence that starts with `s`: one call of `callback`, then the
rest. -/
theorem deliver_cons (native : Int) (s : Step) (rest : List Step) (g : Globals) :
    deliver native g (s :: rest) =
      match callback native s.host g s.note with
      | none => none
      | some r =>
        match deliver native r.globals rest with
        | none => none
        | some (g2, tr) => some (g2, r.trace ++ tr) := rfl

/-- Delivering a sequence in two parts. -/
theorem deliver_append (native : Int) (pre rest : List Step) (g : Globals) :
    deliver native g (pre ++ rest) =
      match deliver native g pre with
      | none => none
      | some (g1, tr1) =>
        match deliver native g1 rest with
        | none => none
        | some (g2, tr2) => some (g2, tr1 ++ tr2) := by
  induction pre generalizing g with
  | nil =>
    rw [List.nil_append]
    cases hd : deliver native g rest with
    | none => simp [deliver, hd]
    | some p => cases p; simp [deliver, hd]
  | cons s pre ih =>
    rw [List.cons_append, deliver_cons, deliver_cons]
    cases callback native s.host g s.note with
    | none => rfl
    | some r =>
      dsimp only
      rw [ih]
      cases deliver native r.globals pre with
      | none => rfl
      | some p =>
        cases p with
        | mk g1 tr1 =>
          dsimp only
          cases deliver native g1 rest with
          | none => rfl
          | some q => cases q; simp

/-- C10: starting from the initial globals (state `Other`, no session), for
every finite sequence of notifications in which every session construction
attempted succeeds, every call of `callback` returns and the invariant
`debuggerState_ ≠ Other → session_ ≠ none` holds at the end (hence after every
prefix): no event is ever forwarded through an empty `session_`. Exit,
breakpoint and exception notifications (and unknown codes) that arrive before
any start or attach are dropped: they leave the initial globals and an empty
trace, and the sequence behaves as if they had not been delivered. -/
theorem invariant_from_initial (native : Int) (pre rest : List Step)
    (hpre : ∀ s ∈ pre, s.note.isStartOrAttach = false)
    (hok : ∀ s ∈ rest, s.note.isStartOrAttach = true →
      classification native s.host ≠ DebuggerState.Other →
      constructs s.host (classification native s.host) = true) :
    holdsSessionWhenActive Globals.initial ∧
    deliver native Globals.initial pre = some (Globals.initial, []) ∧
    deliver native Globals.initial (pre ++ rest) = deliver native Globals.initial rest ∧
    ∃ g tr, deliver native Globals.initial (pre ++ rest) = some (g, tr) ∧
      holdsSessionWhenActive g := by
  have hinit : holdsSessionWhenActive Globals.initial := fun h => absurd rfl h
  have hdrop : deliver native Globals.initial pre = some (Globals.initial, []) :=
    deliver_unsupported native pre Globals.initial rfl
      (fun s hs hn => by rw [hpre s hs] at hn; cases hn)
  have happ : deliver native Globals.initial (pre ++ rest) =
      deliver native Globals.initial rest := by
    rw [deliver_append, hdrop]
    dsimp only
    cases deliver native Globals.initial rest with
    | none => rfl
    | some q => cases q; simp
  refine ⟨hinit, hdrop, happ, ?_⟩
  rw [happ]
  exact deliver_preserves_invariant native rest Globals.initial hinit hok

/-- Witness for C10: an exit and a breakpoint arrive before any start; then a
local start whose handler throws, a breakpoint, an unsupported attach, an
exception, a remote attach and an exit. -/
theorem invariant_from_initial_witness :
    (∃ g tr,
      deliver 0 Globals.initial
        ([{ host := throwingHost false 0 7 Thrown.unknown, note := Notification.dbg_process_exit },
          { host := throwingHost false 0 7 Thrown.unknown,
            note := Notification.dbg_bpt 1 4198400 }] ++
         [{ host := throwingHost false 0 7 Thrown.unknown,
            note := Notification.dbg_process_start 1234 4194304 },
          { host := quietHost false 0 7, note := Notification.dbg_bpt 1 4198400 },
          { host := quietHost true 5 7, note := Notification.dbg_process_attach 77 },
          { host := quietHost true 5 7, note := Notification.dbg_exception 5 },
          { host := quietHost true 0 7, note := Notification.dbg_process_attach 78 },
          { host := quietHost true 0 7, note := Notification.dbg_process_exit }]) =
        some (g, tr) ∧
      holdsSessionWhenActive g) ∧
    deliver 0 Globals.initial
        [{ host := throwingHost false 0 7 Thrown.unknown, note := Notification.dbg_process_exit },
         { host := throwingHost false 0 7 Thrown.unknown,
           note := Notification.dbg_bpt 1 4198400 }] =
      some (Globals.initial, []) :=
  have h := invariant_from_initial 0
    [{ host := throwingHost false 0 7 Thrown.unknown, note := Notification.dbg_process_exit },
     { host := throwingHost false 0 7 Thrown.unknown, note := Notification.dbg_bpt 1 4198400 }]
    [{ host := throwingHost false 0 7 Thrown.unknown,
       note := Notification.dbg_process_start 1234 4194304 },
     { host := quietHost false 0 7, note := Notification.dbg_bpt 1 4198400 },
     { host := quietHost true 5 7, note := Notification.dbg_process_attach 77 },
     { host := quietHost true 5 7, note := Notification.dbg_exception 5 },
     { host := quietHost true 0 7, note := Notification.dbg_process_attach 78 },
     { host := quietHost true 0 7, note := Notification.dbg_process_exit }]
    (by
      intro s hs
      simp only [List.mem_cons, List.mem_singleton, List.not_mem_nil, or_false] at hs
      rcases hs with h | h <;> subst h <;> rfl)
    (by
      intro s hs
      simp only [List.mem_cons, List.mem_singleton, List.not_mem_nil, or_false] at hs
      rcases hs with h | h | h | h | h | h <;> subst h <;> intro _ hc <;>
        first
        | decide
        | exact absurd (by decide) hc)
  ⟨h.2.2.2, h.2.1⟩

end Uberstealth
